import Mathlib

/-!
Verification of the roadtrip travel-route planner core.

This file gives a shallow embedding, in Lean 4, of the waypoint/route domain
logic of the repository and proves (or refutes) the specification claims
about it.  Numbers are modelled exactly: JavaScript float64 values are
embedded as exact rationals extended with the IEEE special values Infinity,
-Infinity and NaN (`JsNum`); every concrete computation appearing in a claim
is exactly representable in float64, so the rational model agrees with the
code's float behaviour at those inputs.  Fallible code is modelled with
`Except`, external effects (fetch outcomes, database rows, clock readings)
are passed in explicitly as parameters.
-/

namespace Roadtrip

/-! ## JavaScript number model (lib/costCalculator.ts arithmetic)

JS `number` values restricted to what the cost estimator can produce:
an exact rational (idealising a finite float64), positive or negative
Infinity, or NaN.  Division and multiplication follow the IEEE-754 rules
for these cases; the distinction between +0 and -0 is not modelled (the
code only ever divides by the literal configuration value, which is +0
when it is zero). -/
inductive JsNum where
  | fin (q : ℚ)
  | posInf
  | negInf
  | nan
deriving DecidableEq

/-- IEEE division for `JsNum`: a finite value divided by zero gives a signed
infinity (NaN for 0/0), otherwise exact rational division. -/
def jsDiv : JsNum → JsNum → JsNum
  | JsNum.fin a, JsNum.fin b =>
      if b = 0 then
        if 0 < a then JsNum.posInf
        else if a < 0 then JsNum.negInf
        else JsNum.nan
      else JsNum.fin (a / b)
  | JsNum.fin _, JsNum.posInf => JsNum.fin 0
  | JsNum.fin _, JsNum.negInf => JsNum.fin 0
  | JsNum.posInf, JsNum.fin b => if 0 ≤ b then JsNum.posInf else JsNum.negInf
  | JsNum.negInf, JsNum.fin b => if 0 ≤ b then JsNum.negInf else JsNum.posInf
  | _, _ => JsNum.nan

/-- IEEE multiplication for `JsNum`: infinity times a nonzero finite value is
a signed infinity, infinity times zero is NaN. -/
def jsMul : JsNum → JsNum → JsNum
  | JsNum.fin a, JsNum.fin b => JsNum.fin (a * b)
  | JsNum.posInf, JsNum.fin b =>
      if 0 < b then JsNum.posInf else if b < 0 then JsNum.negInf else JsNum.nan
  | JsNum.fin a, JsNum.posInf =>
      if 0 < a then JsNum.posInf else if a < 0 then JsNum.negInf else JsNum.nan
  | JsNum.negInf, JsNum.fin b =>
      if 0 < b then JsNum.negInf else if b < 0 then JsNum.posInf else JsNum.nan
  | JsNum.fin a, JsNum.negInf =>
      if 0 < a then JsNum.negInf else if a < 0 then JsNum.posInf else JsNum.nan
  | JsNum.posInf, JsNum.posInf => JsNum.posInf
  | JsNum.posInf, JsNum.negInf => JsNum.negInf
  | JsNum.negInf, JsNum.posInf => JsNum.negInf
  | JsNum.negInf, JsNum.negInf => JsNum.posInf
  | _, _ => JsNum.nan

/-- Rounding to 2 decimal places as JS `toFixed(2)` does for finite values:
round to the nearest hundredth, ties toward positive infinity. -/
def round2 (q : ℚ) : ℚ := (Int.floor (q * 100 + 1 / 2) : ℚ) / 100

/-- `Number(x.toFixed(2))`: rounds a finite value to 2 decimal places;
`(Infinity).toFixed(2)` is the string "Infinity" and `Number` maps it back
to Infinity, and likewise for -Infinity and NaN. -/
def jsToFixed2Num : JsNum → JsNum
  | JsNum.fin q => JsNum.fin (round2 q)
  | x => x

/-- Cost Settings (types/travel.ts): user-configurable MPG and fuel price. -/
structure CostSettings where
  mpg : JsNum
  pricePerGallon : JsNum
deriving DecidableEq

/-- lib/costCalculator.ts `calculateFuelCost`: gallons = distance / mpg,
total = gallons * price, rounded at the end via `Number(total.toFixed(2))`. -/
def calculateFuelCost (distanceInMiles : JsNum) (settings : CostSettings) : JsNum :=
  let gallonsNeeded := jsDiv distanceInMiles settings.mpg
  let totalCost := jsMul gallonsNeeded settings.pricePerGallon
  jsToFixed2Num totalCost

/-- lib/costCalculator.ts `calculateGallonsNeeded`:
`Number((distanceInMiles / mpg).toFixed(2))`. -/
def calculateGallonsNeeded (distanceInMiles : JsNum) (mpg : JsNum) : JsNum :=
  jsToFixed2Num (jsDiv distanceInMiles mpg)

/-! ## Route resolver model (lib/routing.ts, hooks/useRoute.ts)

In-memory waypoints (types/travel.ts `Waypoint`), resolved route data
(`RouteData`), and the Mapbox Directions fetch.  The external world is an
explicit parameter: an `Except` value standing for the awaited
`fetch` + `response.json()` (an `error` is a thrown network/parse error),
carrying the parsed `routes` array on success. -/

/-- types/travel.ts `Waypoint`: client-side waypoint. -/
structure Waypoint where
  id : String
  lng : ℚ
  lat : ℚ
  name : Option String := none
deriving DecidableEq

/-- GeoJSON `LineString` geometry: ordered coordinate pairs. -/
structure LineString where
  coordinates : List (ℚ × ℚ)
deriving DecidableEq

/-- types/travel.ts `RouteData`: distance (meters), duration (seconds),
geometry. -/
structure RouteData where
  distance : ℚ
  duration : ℚ
  geometry : LineString
deriving DecidableEq

/-- One route candidate in the Mapbox Directions response. -/
structure MapboxRoute where
  distance : ℚ
  duration : ℚ
  geometry : LineString
deriving DecidableEq

/-- Parsed body of the Directions response: its `routes` array (an absent
or empty array are treated identically by the code). -/
structure DirectionsResponse where
  routes : List MapboxRoute
deriving DecidableEq

/-- lib/routing.ts `fetchRoute`.  Returns the resolved route (or none)
paired with whether an external request was issued.  Fewer than 2 waypoints
returns null before building the request; the try/catch turns any thrown
error into null; an empty `routes` array gives null; otherwise the first
route's distance/duration/geometry is returned. -/
def fetchRoute (waypoints : List Waypoint)
    (outcome : Except String DirectionsResponse) : Option RouteData × Bool :=
  if waypoints.length < 2 then (none, false)
  else
    match outcome with
    | Except.error _ => (none, true)
    | Except.ok data =>
      match data.routes with
      | [] => (none, true)
      | r :: _ =>
        (some { distance := r.distance, duration := r.duration, geometry := r.geometry }, true)

/-! ## useRoute cancel-on-supersede (hooks/useRoute.ts)

`useRoute` runs an effect keyed on the waypoint list: the effect captures a
per-invocation `cancelled` flag, awaits `fetchRoute`, and applies the result
to the `route`/`loading` state only if the flag is still false; the effect's
cleanup (run before the next effect whenever the waypoint list changes) sets
the flag.  React runs effects and state updates on a single thread, so the
hook is modelled as a small-step machine over two kinds of events: `change ws`
(the waypoint list changed: cleanup of the previous effect, then the new
effect body runs synchronously up to its await) and `complete g` (the fetch
started by invocation `g` resolves).  Fetch results are given by an
environment function `F` from the input waypoint list to the resolved data,
making "the result corresponding to a waypoint sequence" explicit. -/

/-- One invocation of the effect body that started a fetch: its generation
number (fresh per invocation) and the waypoint list it captured. -/
structure Invocation where
  gen : ℕ
  input : List Waypoint
deriving DecidableEq

/-- State of the `useRoute` hook together with its in-flight fetches:
`route`/`loading` are the two `useState` cells, `currentWs` the latest
waypoint list passed to the hook, `active` the invocation of the current
effect whose `cancelled` flag is false and whose fetch has not yet been
applied, `pending` all invocations whose fetch has not yet resolved, and
`nextGen` the next fresh generation number. -/
structure UseRouteState where
  route : Option RouteData
  loading : Bool
  currentWs : List Waypoint
  active : Option Invocation
  pending : List Invocation
  nextGen : ℕ
deriving DecidableEq

/-- Initial hook state: no route, not loading, empty waypoint list. -/
def initState : UseRouteState :=
  { route := none, loading := false, currentWs := [], active := none, pending := [],
    nextGen := 0 }

/-- Events driving the hook: a waypoint-list change (effect re-run) or the
resolution of the fetch started by generation `g`.  Resolutions may arrive
in any order and interleave arbitrarily with changes. -/
inductive Ev where
  | change (ws : List Waypoint)
  | complete (g : ℕ)
deriving DecidableEq

/-- One step of the hook.  On `change ws`: the previous effect's cleanup
sets its `cancelled` flag (dropping `active`); then the new effect either
resets the route to null when `ws` has fewer than 2 entries (the code
returns early and leaves `loading` untouched) or sets `loading`, starts a
fetch and becomes the active invocation.  On `complete g`: the resolved
fetch is removed from `pending`, and its result is applied to
`route`/`loading` only when it belongs to the still-uncancelled effect
(generation numbers are unique, so invocation equality coincides with
generation equality). -/
def step (F : List Waypoint → Option RouteData) (s : UseRouteState) : Ev → UseRouteState
  | Ev.change ws =>
    let s' := { s with active := none, currentWs := ws }
    if ws.length < 2 then
      { s' with route := none }
    else
      let inv : Invocation := { gen := s.nextGen, input := ws }
      { s' with loading := true, active := some inv, pending := inv :: s.pending, nextGen := s.nextGen + 1 }
  | Ev.complete g =>
    match s.pending.find? (fun i => i.gen == g) with
    | none => s
    | some inv =>
      let s' := { s with pending := s.pending.filter (fun i => i ≠ inv) }
      if s.active = some inv then
        { s' with route := F inv.input, loading := false, active := none }
      else s'

/-- Run the hook from its initial state over a list of events. -/
def runEvents (F : List Waypoint → Option RouteData) (es : List Ev) : UseRouteState :=
  es.foldl (step F) initState

/-- The route the latest waypoint list should display: none when it cannot
be resolved (fewer than 2 waypoints), otherwise the fetch result for it. -/
def expectedRoute (F : List Waypoint → Option RouteData) (ws : List Waypoint) :
    Option RouteData :=
  if ws.length < 2 then none else F ws

/-- Invariant tying the hook state to the latest waypoint list: the active
invocation (if any) is in flight and captured exactly the current list,
and once no invocation is active the displayed route is the expected one. -/
structure StateInv (F : List Waypoint → Option RouteData) (s : UseRouteState) : Prop where
  activeSound : ∀ a, s.active = some a →
    a ∈ s.pending ∧ a.input = s.currentWs ∧ 2 ≤ s.currentWs.length
  settled : s.active = none → s.route = expectedRoute F s.currentWs

/-- Fetch environment used by the C1 witness: resolves every waypoint list. -/
def demoF : List Waypoint → Option RouteData := fun ws =>
  some { distance := (ws.length : ℚ) * 1000, duration := 60, geometry := ⟨[]⟩ }

/-- Concrete waypoints for the C1 witness. -/
def wpA : Waypoint := ⟨("waypoint-1"), 0, 0, none⟩

/-- Second concrete waypoint for the C1 witness. -/
def wpB : Waypoint := ⟨("waypoint-2"), 1, 1, none⟩

/-! ## Route persistence gateway model

Rows of the two tables (routes, waypoints) and the tRPC procedures that
operate on them.  The repository contains three generations of the router:
the Supabase version in src/lib/trpc/routes.ts (public procedures, no
ownership checks, `user_id` written as null), the Supabase version with
Clerk ownership checks, and the Drizzle repository version.  Each procedure
is modelled as a function from the database state (plus explicit
id-generation and failure-injection parameters standing for the
storage-generated uuids and possible insert errors) to the post-call
database state and an `Except` outcome (an `error` is a thrown exception /
rejected promise). -/

/-- A row of the routes table: id, owning user (null in the ownerless
Supabase variant), name, description. -/
structure RouteRow where
  id : String
  user_id : Option String
  name : String
  description : Option String := none
deriving DecidableEq

/-- A row of the waypoints table: id, parent route, 0-based position and
coordinates (numeric columns with 8 fractional digits). -/
structure WaypointRow where
  id : String
  route_id : String
  position : ℕ
  latitude : ℚ
  longitude : ℚ
  name : Option String := none
deriving DecidableEq

/-- The database: the routes and waypoints tables. -/
structure DB where
  routes : List RouteRow
  waypoints : List WaypointRow
deriving DecidableEq

/-- src/lib/trpc/routes.ts `removeWaypoint` (publicProcedure): deletes the
waypoint row matching the id, with no caller identity and no ownership
check, and reports success. -/
def removeWaypointPublic (db : DB) (wid : String) : DB × Except String Unit :=
  ({ db with waypoints := db.waypoints.filter (fun w => w.id ≠ wid) }, Except.ok ())

/-- Clerk/Supabase `removeWaypoint` (protectedProcedure): looks up the
waypoint; when it exists, fetches its parent route and throws Unauthorized
unless the route exists and is owned by the caller; then deletes by id
(a lookup miss skips the check and the delete is a no-op). -/
def removeWaypointSupabase (db : DB) (userId : String) (wid : String) :
    DB × Except String Unit :=
  match db.waypoints.find? (fun w => w.id == wid) with
  | some w =>
    match db.routes.find? (fun r => r.id == w.route_id) with
    | some r =>
      if r.user_id = some userId then
        ({ db with waypoints := db.waypoints.filter (fun x => x.id ≠ wid) }, Except.ok ())
      else (db, Except.error ("Unauthorized"))
    | none => (db, Except.error ("Unauthorized"))
  | none =>
    ({ db with waypoints := db.waypoints.filter (fun x => x.id ≠ wid) }, Except.ok ())

/-- Drizzle `removeWaypoint` (protectedProcedure): calls the repository
`deleteWaypoint(id)` — a delete by waypoint id with no ownership check —
and throws "Waypoint not found" only when nothing was deleted. -/
def removeWaypointDrizzle (db : DB) (wid : String) : DB × Except String Unit :=
  match db.waypoints.find? (fun w => w.id == wid) with
  | some _ =>
    ({ db with waypoints := db.waypoints.filter (fun x => x.id ≠ wid) }, Except.ok ())
  | none => (db, Except.error ("Waypoint not found"))

/-- Create-route input for one waypoint (latitude, longitude, optional
name); positions are assigned from the array index, not supplied. -/
structure NewWaypointInput where
  latitude : ℚ
  longitude : ℚ
  name : Option String := none
deriving DecidableEq

/-- `input.waypoints.map((wp, index) => ({route_id, ..., position: index}))`
followed by the insert: the rows produced for a waypoint array, positions
counting up from `i`, row ids drawn from the storage id generator. -/
def waypointRowsFrom (rid : String) (widGen : ℕ → String) (i : ℕ) :
    List NewWaypointInput → List WaypointRow
  | [] => []
  | wp :: rest =>
    { id := widGen i, route_id := rid, position := i, latitude := wp.latitude,
      longitude := wp.longitude, name := wp.name } :: waypointRowsFrom rid widGen (i + 1) rest

/-- Storage rounding of a coordinate to the numeric column scale of 8
fractional digits (PostgreSQL numeric rounds half away from zero). -/
def quant8 (q : ℚ) : ℚ :=
  if 0 ≤ q then (Int.floor (q * 100000000 + 1 / 2) : ℚ) / 100000000
  else -((Int.floor (-q * 100000000 + 1 / 2) : ℚ) / 100000000)

/-- The rows written by the Drizzle path: `wp.latitude.toString()` stored
into a numeric(·, 8) column, i.e. the coordinate rounded to 8 fractional
digits, position from array index counting up from `i`. -/
def drizzleWaypointRows (rid : String) (widGen : ℕ → String) (i : ℕ) :
    List NewWaypointInput → List WaypointRow
  | [] => []
  | wp :: rest =>
    { id := widGen i, route_id := rid, position := i, latitude := quant8 wp.latitude,
      longitude := quant8 wp.longitude, name := wp.name } ::
      drizzleWaypointRows rid widGen (i + 1) rest

/-- src/lib/trpc/routes.ts `create` (and the Clerk variant, which differs
only in writing `ctx.userId` instead of null): inserts the route row, then
inserts all waypoint rows; `wpInsertFails` injects a failure of the second
insert, which is thrown with the route row already committed (there is no
transaction around the two inserts). -/
def createRouteSupabase (db : DB) (owner : Option String) (rid : String)
    (widGen : ℕ → String) (nm : String) (descr : Option String)
    (wps : List NewWaypointInput) (wpInsertFails : Bool) :
    DB × Except String RouteRow :=
  let route : RouteRow := { id := rid, user_id := owner, name := nm, description := descr }
  let db1 : DB := { db with routes := db.routes ++ [route] }
  if wpInsertFails then (db1, Except.error ("waypointsError"))
  else
    ({ db1 with waypoints := db1.waypoints ++ waypointRowsFrom rid widGen 0 wps },
      Except.ok route)

/-- Drizzle tRPC `create`: `routeRepository.createRoute` (route row insert),
then, when the waypoint array is nonempty, `waypointRepository.createWaypoints`
(bulk insert, positions from array index); again no transaction — a failing
waypoint insert throws after the route row is committed. -/
def createRouteDrizzle (db : DB) (userId : String) (rid : String)
    (widGen : ℕ → String) (nm : String) (descr : Option String)
    (wps : List NewWaypointInput) (wpInsertFails : Bool) :
    DB × Except String RouteRow :=
  let route : RouteRow := { id := rid, user_id := some userId, name := nm, description := descr }
  let db1 : DB := { db with routes := db.routes ++ [route] }
  if 0 < wps.length then
    if wpInsertFails then (db1, Except.error ("createWaypoints failed"))
    else
      ({ db1 with waypoints := db1.waypoints ++ drizzleWaypointRows rid widGen 0 wps },
        Except.ok route)
  else (db1, Except.ok route)

/-- lib/db/repositories/routes.ts `getRouteWithWaypoints`: select the route
by id and owning user (null when no row matches), then the route's
waypoints ordered by ascending position. -/
def getRouteWithWaypoints (db : DB) (rid : String) (userId : String) :
    Option (RouteRow × List WaypointRow) :=
  match db.routes.find? (fun r => r.id == rid && r.user_id == some userId) with
  | none => none
  | some r =>
    some (r, (db.waypoints.filter (fun w => w.route_id == rid)).mergeSort
      (fun a b => a.position ≤ b.position))

/-- lib/db/repositories/waypoints.ts `replaceWaypoints`: within one
`db.transaction`, delete the route's waypoints and insert the new rows;
the transaction is all-or-nothing, so an injected insert failure rolls the
delete back and leaves the database unchanged. -/
def replaceWaypoints (db : DB) (rid : String) (rows : List WaypointRow)
    (insertFails : Bool) : DB × Except String Unit :=
  if insertFails then (db, Except.error ("transaction rolled back"))
  else
    ({ db with waypoints := db.waypoints.filter (fun w => w.route_id ≠ rid) ++ rows },
      Except.ok ())

/-- Drizzle tRPC `update`, waypoint branch: builds rows with positions from
the new array order and calls the transactional `replaceWaypoints`. -/
def updateRouteWaypointsDrizzle (db : DB) (rid : String) (widGen : ℕ → String)
    (wps : List NewWaypointInput) (insertFails : Bool) : DB × Except String Unit :=
  replaceWaypoints db rid (drizzleWaypointRows rid widGen 0 wps) insertFails

/-- src/lib/trpc/routes.ts `update`, waypoint branch: deletes the route's
waypoints, then inserts the new rows as a separate call with no transaction;
a failing insert throws with the delete already committed. -/
def updateRouteWaypointsSupabase (db : DB) (rid : String) (widGen : ℕ → String)
    (wps : List NewWaypointInput) (insertFails : Bool) : DB × Except String Unit :=
  let db1 : DB := { db with waypoints := db.waypoints.filter (fun w => w.route_id ≠ rid) }
  if insertFails then (db1, Except.error ("insertError"))
  else ({ db1 with waypoints := db1.waypoints ++ waypointRowsFrom rid widGen 0 wps },
    Except.ok ())

/-- A concrete database for counterexamples and witnesses: one route owned
by alice containing one waypoint. -/
def dbAlice : DB :=
  { routes := [{ id := ("r1"), user_id := some ("alice"), name := ("Trip"), description := none }],
    waypoints := [{ id := ("w1"), route_id := ("r1"), position := 0, latitude := 1, longitude := 2, name := none }] }

/-- The empty database. -/
def dbEmpty : DB := { routes := [], waypoints := [] }

/-- A storage id generator for witnesses. -/
def widDemo : ℕ → String := fun n => ("wgen-") ++ toString n

/-- A concrete waypoint input. -/
def wpIn1 : NewWaypointInput := { latitude := 1, longitude := 2, name := none }

/-- Second concrete waypoint input, with coordinates needing rounding to the
stored scale (9 fractional digits round to 8). -/
def wpIn2 : NewWaypointInput :=
  { latitude := 3 / 2, longitude := 1000000001 / 1000000000, name := some ("Berlin") }

/-- A database with one route owned by alice holding two waypoints, for the
C8 counterexample. -/
def dbTwoWps : DB :=
  { routes := [{ id := ("r1"), user_id := some ("alice"), name := ("Trip"), description := none }],
    waypoints := [{ id := ("w1"), route_id := ("r1"), position := 0, latitude := 1, longitude := 2, name := none }, { id := ("w2"), route_id := ("r1"), position := 1, latitude := 3, longitude := 4, name := none }] }

/-! ## Waypoint store (hooks/useWaypoints.ts)

`addWaypoint` builds the id from the current clock reading,
`waypoint-<Date.now()>`, and appends the waypoint (with the placeholder
name) synchronously; the clock reading is an explicit parameter here.
`Date.now()` has millisecond resolution, so two adds within the same
millisecond observe the same reading. -/

/-- The id generated by `addWaypoint`: the string `waypoint-` followed by
the millisecond timestamp. -/
def mkWaypointId (now : ℕ) : String := ("waypoint-") ++ toString now

/-- The synchronous part of hooks/useWaypoints.ts `addWaypoint`: append a
new waypoint with the timestamp-derived id and the placeholder name (the
asynchronous reverse-geocode later rewrites the name and touches nothing
else). -/
def addWaypointSync (ws : List Waypoint) (now : ℕ) (lng lat : ℚ) : List Waypoint :=
  ws ++ [{ id := mkWaypointId now, lng := lng, lat := lat, name := some ("...") }]

/-! ## Place search (lib/mapboxSearch.ts `getSuggestions`)

The external world is the access token (absent or present) and the
fetch outcome: a thrown error, or a response with its `ok` flag and parsed
`suggestions` array.  A non-ok response throws inside the try block and is
caught like a network error; every failure path resolves to the empty
list.  On success the raw suggestions are re-ranked by feature-type
priority (place, region, postcode, address, everything else last), ties
keeping their original order. -/

/-- One entry of the provider's `suggestions` array (fields used by the
code). -/
structure RawSuggestion where
  name : String
  mapbox_id : String
  place_formatted : String
  feature_type : Option String
deriving DecidableEq

/-- lib/mapboxSearch.ts `SearchSuggestion`. -/
structure SearchSuggestion where
  name : String
  mapboxId : String
  placeFormatted : String
  featureType : Option String
deriving DecidableEq

/-- Parsed suggest response: the HTTP `ok` flag and the `suggestions`
array (absent modelled as empty, as `data.suggestions || []` does). -/
structure SuggestResponse where
  ok : Bool
  suggestions : List RawSuggestion
deriving DecidableEq

/-- The `typePriority` table with the `?? Number.MAX_SAFE_INTEGER`
fallback (an absent feature type looks up the empty string and falls back
too). -/
def typePriority (t : Option String) : ℕ :=
  match t with
  | some s =>
    if s = ("place") then 0
    else if s = ("region") then 1
    else if s = ("postcode") then 2
    else if s = ("address") then 3
    else 9007199254740991
  | none => 9007199254740991

/-- The re-ranking: attach original indices (`enum`), sort by priority with
the original index breaking ties (the comparator of the code), and strip
back down to the output shape. -/
def sortSuggestions (raw : List RawSuggestion) : List SearchSuggestion :=
  (raw.enum.mergeSort (fun a b =>
      if typePriority a.2.feature_type = typePriority b.2.feature_type then a.1 ≤ b.1
      else typePriority a.2.feature_type ≤ typePriority b.2.feature_type)).map
    (fun p => { name := p.2.name, mapboxId := p.2.mapbox_id, placeFormatted := p.2.place_formatted, featureType := p.2.feature_type })

/-- lib/mapboxSearch.ts `getSuggestions`: empty list when the access token
is missing; inside try/catch, a thrown fetch/parse error or a non-ok
response (which throws and is caught) yields the empty list; otherwise the
re-ranked suggestions.  The query text and options only shape the request
URL and are omitted. -/
def getSuggestions (accessToken : Option String)
    (outcome : Except String SuggestResponse) : List SearchSuggestion :=
  match accessToken with
  | none => []
  | some _ =>
    match outcome with
    | Except.error _ => []
    | Except.ok resp => if resp.ok then sortSuggestions resp.suggestions else []

/-- C4: `fetchRoute` never throws (it is a total function into
`Option RouteData`, the catch handler absorbing every thrown error): with
fewer than 2 waypoints it returns null without issuing an external request;
on a thrown fetch/parse error or an empty routes array it returns null; and
otherwise it returns the first route's distance, duration and geometry. -/
theorem fetchRoute_no_route_on_failure (ws : List Waypoint)
    (outcome : Except String DirectionsResponse) (e : String)
    (r : MapboxRoute) (rest : List MapboxRoute) :
    (ws.length < 2 → fetchRoute ws outcome = (none, false)) ∧
    (2 ≤ ws.length → fetchRoute ws (Except.error e) = (none, true)) ∧
    (2 ≤ ws.length → fetchRoute ws (Except.ok ⟨[]⟩) = (none, true)) ∧
    (2 ≤ ws.length → fetchRoute ws (Except.ok ⟨r :: rest⟩) =
      (some { distance := r.distance, duration := r.duration, geometry := r.geometry }, true)) := by
  refine ⟨fun h => ?_, fun h => ?_, fun h => ?_, fun h => ?_⟩ <;>
    simp [fetchRoute, Nat.not_lt.mpr, h, Nat.not_lt_of_le h]

/-- Witness for C4: no request for a single waypoint; null on error, null on
zero routes, first route returned otherwise, for a concrete 2-waypoint list. -/
theorem fetchRoute_no_route_on_failure_witness :
    fetchRoute [⟨("a"), 0, 0, none⟩] (Except.error ("boom")) = (none, false) ∧
    fetchRoute [⟨("a"), 0, 0, none⟩, ⟨("b"), 1, 1, none⟩] (Except.error ("boom")) =
      (none, true) ∧
    fetchRoute [⟨("a"), 0, 0, none⟩, ⟨("b"), 1, 1, none⟩] (Except.ok ⟨[]⟩) = (none, true) ∧
    fetchRoute [⟨("a"), 0, 0, none⟩, ⟨("b"), 1, 1, none⟩]
        (Except.ok ⟨[⟨5, 9, ⟨[(0, 0), (1, 1)]⟩⟩]⟩) =
      (some { distance := 5, duration := 9, geometry := ⟨[(0, 0), (1, 1)]⟩ }, true) :=
  ⟨(fetchRoute_no_route_on_failure [⟨("a"), 0, 0, none⟩] (Except.error ("boom")) ("boom")
      ⟨5, 9, ⟨[]⟩⟩ []).1 (by simp),
   (fetchRoute_no_route_on_failure [⟨("a"), 0, 0, none⟩, ⟨("b"), 1, 1, none⟩]
      (Except.error ("boom")) ("boom") ⟨5, 9, ⟨[]⟩⟩ []).2.1 (by simp),
   (fetchRoute_no_route_on_failure [⟨("a"), 0, 0, none⟩, ⟨("b"), 1, 1, none⟩]
      (Except.error ("boom")) ("boom") ⟨5, 9, ⟨[]⟩⟩ []).2.2.1 (by simp),
   (fetchRoute_no_route_on_failure [⟨("a"), 0, 0, none⟩, ⟨("b"), 1, 1, none⟩]
      (Except.error ("boom")) ("boom") ⟨5, 9, ⟨[(0, 0), (1, 1)]⟩⟩ []).2.2.2 (by simp)⟩

theorem stateInv_initState (F : List Waypoint → Option RouteData) :
    StateInv F initState := by
  constructor
  · intro a ha; simp [initState] at ha
  · intro _; simp [initState, expectedRoute]

theorem stateInv_step (F : List Waypoint → Option RouteData) (s : UseRouteState)
    (hs : StateInv F s) (e : Ev) : StateInv F (step F s e) := by
  cases e with
  | change ws =>
    by_cases hlen : ws.length < 2
    · have hstep : step F s (Ev.change ws) = { s with active := none, currentWs := ws, route := none } := by
        simp [step, hlen]
      constructor
      · intro a ha; rw [hstep] at ha; exact absurd ha (by simp)
      · intro _; rw [hstep]; simp [expectedRoute, hlen]
    · have hstep : step F s (Ev.change ws) = { s with active := some ⟨s.nextGen, ws⟩, currentWs := ws, loading := true, pending := ⟨s.nextGen, ws⟩ :: s.pending, nextGen := s.nextGen + 1 } := by
        simp [step, hlen]
      constructor
      · intro a ha
        rw [hstep] at ha
        have ha' : a = ⟨s.nextGen, ws⟩ := by simpa [eq_comm] using ha
        subst ha'
        rw [hstep]
        exact ⟨by simp, rfl, Nat.le_of_not_lt hlen⟩
      · intro h; rw [hstep] at h; exact absurd h (by simp)
  | complete g =>
    rcases hfind : s.pending.find? (fun i => i.gen == g) with _ | inv
    · have hstep : step F s (Ev.complete g) = s := by simp [step, hfind]
      rw [hstep]; exact hs
    · by_cases hact : s.active = some inv
      · have hstep : step F s (Ev.complete g) = { s with pending := s.pending.filter (fun i => i ≠ inv), route := F inv.input, loading := false, active := none } := by
          simp [step, hfind, hact]
        constructor
        · intro a ha; rw [hstep] at ha; exact absurd ha (by simp)
        · intro _
          obtain ⟨-, hin, hlen2⟩ := hs.activeSound inv hact
          rw [hstep]
          simp [expectedRoute, hin, Nat.not_lt_of_le hlen2]
      · have hstep : step F s (Ev.complete g) = { s with pending := s.pending.filter (fun i => i ≠ inv) } := by
          simp [step, hfind, hact]
        constructor
        · intro a ha
          rw [hstep] at ha
          obtain ⟨hmem', hin, hlen2⟩ := hs.activeSound a ha
          rw [hstep]
          refine ⟨List.mem_filter.mpr ⟨hmem', ?_⟩, hin, hlen2⟩
          simp only [ne_eq, decide_not, Bool.not_eq_eq_eq_not, Bool.not_true, decide_eq_false_iff_not]
          exact fun h => hact (h ▸ ha)
        · intro h
          rw [hstep] at h
          rw [hstep]
          exact hs.settled h

theorem stateInv_foldl (F : List Waypoint → Option RouteData) (es : List Ev)
    (s : UseRouteState) (hs : StateInv F s) : StateInv F (es.foldl (step F) s) := by
  induction es generalizing s with
  | nil => exact hs
  | cons e rest ih => exact ih _ (stateInv_step F s hs e)

/-- C1: cancel-on-supersede.  First conjunct: a fetch resolution whose
generation is not the active (latest, uncancelled) invocation is discarded —
it changes neither the displayed route nor the loading flag, in any state.
Second conjunct: after an arbitrary interleaving of waypoint changes and
out-of-order fetch resolutions, once no resolution is still in flight the
displayed route is exactly the one determined by the latest waypoint
sequence (none for fewer than 2 waypoints, its own fetch result otherwise),
never a stale superseded result. -/
theorem useRoute_cancel_on_supersede (F : List Waypoint → Option RouteData)
    (es : List Ev) (s : UseRouteState) (g : ℕ) :
    ((∀ a, s.active = some a → a.gen ≠ g) →
      (step F s (Ev.complete g)).route = s.route ∧
      (step F s (Ev.complete g)).loading = s.loading) ∧
    ((runEvents F es).pending = [] →
      (runEvents F es).route = expectedRoute F (runEvents F es).currentWs) := by
  constructor
  · intro hstale
    rcases hfind : s.pending.find? (fun i => i.gen == g) with _ | inv
    · have hstep : step F s (Ev.complete g) = s := by simp [step, hfind]
      rw [hstep]; exact ⟨rfl, rfl⟩
    · have hgen : inv.gen = g := by simpa using List.find?_some hfind
      have hact : ¬s.active = some inv := fun h => hstale inv h hgen
      have hstep : step F s (Ev.complete g) = { s with pending := s.pending.filter (fun i => i ≠ inv) } := by
        simp [step, hfind, hact]
      rw [hstep]; exact ⟨rfl, rfl⟩
  · intro hpend
    have hinv : StateInv F (runEvents F es) :=
      stateInv_foldl F es initState (stateInv_initState F)
    have hnone : (runEvents F es).active = none := by
      rcases h : (runEvents F es).active with _ | a
      · rfl
      · obtain ⟨hmem, -, -⟩ := hinv.activeSound a h
        rw [hpend] at hmem
        cases hmem
    exact hinv.settled hnone

/-- Witness for C1: a resolution with a non-active generation leaves the
initial state's route/loading untouched, and a change to two waypoints
followed by its own resolution displays exactly that sequence's result. -/
theorem useRoute_cancel_on_supersede_witness :
    ((step demoF initState (Ev.complete 5)).route = initState.route ∧
     (step demoF initState (Ev.complete 5)).loading = initState.loading) ∧
    (runEvents demoF [Ev.change [wpA, wpB], Ev.complete 0]).route =
      expectedRoute demoF (runEvents demoF [Ev.change [wpA, wpB], Ev.complete 0]).currentWs :=
  ⟨(useRoute_cancel_on_supersede demoF [] initState 5).1
      (fun a ha => absurd ha (by simp [initState])),
   (useRoute_cancel_on_supersede demoF [Ev.change [wpA, wpB], Ev.complete 0] initState 0).2
      (by simp [runEvents, step, initState, wpA, wpB])⟩

/-- C5 counterexample: `removeWaypoint` in src/lib/trpc/routes.ts takes no
caller identity at all and deletes the waypoint unconditionally, and the
Drizzle version deletes for every caller identity without consulting the
parent route's owner: both delete a waypoint of a route owned by alice and
report success instead of failing unauthorized. -/
theorem removeWaypoint_no_ownership_counterexample :
    removeWaypointPublic dbAlice ("w1") =
      ({ routes := dbAlice.routes, waypoints := [] }, Except.ok ()) ∧
    removeWaypointDrizzle dbAlice ("w1") =
      ({ routes := dbAlice.routes, waypoints := [] }, Except.ok ()) := by
  constructor <;> rfl

/-- C5 amended: only the Clerk/Supabase version of `removeWaypoint` verifies
that the waypoint's parent route is owned by the caller: whenever the
waypoint exists and its parent route is absent or not owned by the caller,
it throws Unauthorized and leaves the database (hence the waypoint)
unchanged.  The version in src/lib/trpc/routes.ts and the Drizzle version
delete without any ownership verification (second conjunct: the routes.ts
version reports success on every input). -/
theorem removeWaypointSupabase_ownership (db : DB) (userId wid : String) (w : WaypointRow)
    (hw : db.waypoints.find? (fun x => x.id == wid) = some w)
    (hown : ∀ r, db.routes.find? (fun r => r.id == w.route_id) = some r →
      r.user_id ≠ some userId) :
    removeWaypointSupabase db userId wid = (db, Except.error ("Unauthorized")) ∧
    ∀ db2 wid2, (removeWaypointPublic db2 wid2).2 = Except.ok () := by
  refine ⟨?_, fun db2 wid2 => rfl⟩
  unfold removeWaypointSupabase
  rw [hw]
  rcases hr : db.routes.find? (fun r => r.id == w.route_id) with _ | r
  · simp [hr]
  · simp [hr, hown r hr]

/-- Witness for the amended C5: bob cannot remove the waypoint of alice's
route; the ownerless routes.ts variant reports success on the same input. -/
theorem removeWaypointSupabase_ownership_witness :
    removeWaypointSupabase dbAlice ("bob") ("w1") = (dbAlice, Except.error ("Unauthorized")) ∧
    (removeWaypointPublic dbAlice ("w1")).2 = Except.ok () :=
  ⟨(removeWaypointSupabase_ownership dbAlice ("bob") ("w1")
      { id := ("w1"), route_id := ("r1"), position := 0, latitude := 1, longitude := 2, name := none }
      rfl
      (fun r hr => by
        have hr' : r = { id := ("r1"), user_id := some ("alice"), name := ("Trip"), description := none } := by
          simpa [dbAlice] using hr.symm
        subst hr'
        simp)).1,
   (removeWaypointSupabase_ownership dbAlice ("bob") ("w1")
      { id := ("w1"), route_id := ("r1"), position := 0, latitude := 1, longitude := 2, name := none }
      rfl
      (fun r hr => by
        have hr' : r = { id := ("r1"), user_id := some ("alice"), name := ("Trip"), description := none } := by
          simpa [dbAlice] using hr.symm
        subst hr'
        simp)).2 dbAlice ("w1")⟩

/-- C6 counterexample: `create` runs the route insert and the waypoint
insert as two separate calls with no transaction; when the waypoint insert
fails, the already-committed route row remains with none of its supplied
waypoints — an orphaned route — in both the Supabase and the Drizzle
version. -/
theorem createRoute_orphan_counterexample :
    (createRouteSupabase dbEmpty (some ("alice")) ("r1") widDemo ("Trip") none [wpIn1] true).1 =
      { routes := [{ id := ("r1"), user_id := some ("alice"), name := ("Trip"), description := none }], waypoints := [] } ∧
    (createRouteSupabase dbEmpty (some ("alice")) ("r1") widDemo ("Trip") none [wpIn1] true).2 =
      Except.error ("waypointsError") ∧
    (createRouteDrizzle dbEmpty ("alice") ("r1") widDemo ("Trip") none [wpIn1] true).1 =
      { routes := [{ id := ("r1"), user_id := some ("alice"), name := ("Trip"), description := none }], waypoints := [] } ∧
    (createRouteDrizzle dbEmpty ("alice") ("r1") widDemo ("Trip") none [wpIn1] true).2 =
      Except.error ("createWaypoints failed") :=
  ⟨rfl, rfl, rfl, rfl⟩

/-- C6 amended: `createRoute` is not atomic.  For every input whose waypoint
insertion step fails after the route record was created, the error is
thrown, none of the waypoints are stored, and the route row remains in
storage (an orphaned route) — in the Supabase version for every waypoint
array, and in the Drizzle version for every nonempty waypoint array (with
an empty array it performs no waypoint insert at all). -/
theorem createRoute_not_atomic (db : DB) (owner : Option String) (userId rid nm : String)
    (widGen : ℕ → String) (descr : Option String) (wps : List NewWaypointInput)
    (hne : 0 < wps.length) :
    createRouteSupabase db owner rid widGen nm descr wps true =
      ({ db with routes := db.routes ++ [{ id := rid, user_id := owner, name := nm, description := descr }] }, Except.error ("waypointsError")) ∧
    createRouteDrizzle db userId rid widGen nm descr wps true =
      ({ db with routes := db.routes ++ [{ id := rid, user_id := some userId, name := nm, description := descr }] }, Except.error ("createWaypoints failed")) := by
  constructor
  · rfl
  · simp [createRouteDrizzle, hne]

/-- Witness for the amended C6: a one-waypoint create whose waypoint insert
fails leaves the orphaned route row behind in both versions. -/
theorem createRoute_not_atomic_witness :
    createRouteSupabase dbEmpty (some ("alice")) ("r1") widDemo ("Trip") none [wpIn1] true =
      ({ routes := [{ id := ("r1"), user_id := some ("alice"), name := ("Trip"), description := none }], waypoints := [] }, Except.error ("waypointsError")) ∧
    createRouteDrizzle dbEmpty ("alice") ("r1") widDemo ("Trip") none [wpIn1] true =
      ({ routes := [{ id := ("r1"), user_id := some ("alice"), name := ("Trip"), description := none }], waypoints := [] }, Except.error ("createWaypoints failed")) :=
  createRoute_not_atomic dbEmpty (some ("alice")) ("alice") ("r1") ("Trip") widDemo none
    [wpIn1] (by simp)

theorem drizzleWaypointRows_route_id (rid : String) (widGen : ℕ → String) :
    ∀ (i : ℕ) (wps : List NewWaypointInput) (w : WaypointRow),
      w ∈ drizzleWaypointRows rid widGen i wps → w.route_id = rid := by
  intro i wps
  induction wps generalizing i with
  | nil => intro w hw; simp [drizzleWaypointRows] at hw
  | cons wp rest ih =>
    intro w hw
    rcases (by simpa [drizzleWaypointRows] using hw : _ ∨ _) with h | h
    · rw [h]
    · exact ih (i + 1) w (by simpa [drizzleWaypointRows] using h)

theorem drizzleWaypointRows_positions (rid : String) (widGen : ℕ → String) :
    ∀ (i : ℕ) (wps : List NewWaypointInput),
      (drizzleWaypointRows rid widGen i wps).map (fun w => w.position) =
        List.range' i wps.length := by
  intro i wps
  induction wps generalizing i with
  | nil => simp [drizzleWaypointRows]
  | cons wp rest ih => simp [drizzleWaypointRows, List.range', ih (i + 1)]

theorem drizzleWaypointRows_coords (rid : String) (widGen : ℕ → String) :
    ∀ (i : ℕ) (wps : List NewWaypointInput),
      (drizzleWaypointRows rid widGen i wps).map (fun w => (w.latitude, w.longitude)) =
        wps.map (fun wp => (quant8 wp.latitude, quant8 wp.longitude)) := by
  intro i wps
  induction wps generalizing i with
  | nil => simp [drizzleWaypointRows]
  | cons wp rest ih => simp [drizzleWaypointRows, ih (i + 1)]

theorem drizzleWaypointRows_names (rid : String) (widGen : ℕ → String) :
    ∀ (i : ℕ) (wps : List NewWaypointInput),
      (drizzleWaypointRows rid widGen i wps).map (fun w => w.name) =
        wps.map (fun wp => wp.name) := by
  intro i wps
  induction wps generalizing i with
  | nil => simp [drizzleWaypointRows]
  | cons wp rest ih => simp [drizzleWaypointRows, ih (i + 1)]

theorem drizzleWaypointRows_sorted (rid : String) (widGen : ℕ → String) (i : ℕ)
    (wps : List NewWaypointInput) :
    (drizzleWaypointRows rid widGen i wps).Pairwise (fun a b => a.position ≤ b.position) := by
  have hmap := drizzleWaypointRows_positions rid widGen i wps
  have hr : (List.range' i wps.length).Pairwise (· ≤ ·) :=
    (List.pairwise_lt_range' i wps.length).imp Nat.le_of_lt
  rw [← hmap] at hr
  exact (List.pairwise_map).mp hr

theorem createRouteDrizzle_ok (db : DB) (userId rid nm : String) (widGen : ℕ → String)
    (descr : Option String) (wps : List NewWaypointInput) :
    createRouteDrizzle db userId rid widGen nm descr wps false =
      ({ db with routes := db.routes ++ [{ id := rid, user_id := some userId, name := nm, description := descr }], waypoints := db.waypoints ++ drizzleWaypointRows rid widGen 0 wps }, Except.ok { id := rid, user_id := some userId, name := nm, description := descr }) := by
  by_cases h : 0 < wps.length
  · simp [createRouteDrizzle, h]
  · have hnil : wps = [] := List.length_eq_zero.mp (Nat.eq_zero_of_not_pos h)
    subst hnil
    simp [createRouteDrizzle, drizzleWaypointRows]

/-- C7: round-trip.  Creating a route (Drizzle path) with a fresh storage id
and then reading it back with `getRouteWithWaypoints` under the same owner
returns the route row and its waypoints in exactly the supplied order:
positions are 0..n-1 assigned from the array index on write and the read
sorts by position; latitude/longitude come back equal to the supplied values
rounded to the stored numeric scale of 8 fractional digits, and names are
preserved. -/
theorem createRoute_getRoute_roundtrip (db : DB) (userId rid nm : String)
    (widGen : ℕ → String) (descr : Option String) (wps : List NewWaypointInput)
    (hfreshR : ∀ r ∈ db.routes, r.id ≠ rid)
    (hfreshW : ∀ w ∈ db.waypoints, w.route_id ≠ rid) :
    getRouteWithWaypoints (createRouteDrizzle db userId rid widGen nm descr wps false).1
        rid userId =
      some ({ id := rid, user_id := some userId, name := nm, description := descr },
        drizzleWaypointRows rid widGen 0 wps) ∧
    (drizzleWaypointRows rid widGen 0 wps).map (fun w => w.position) =
      List.range wps.length ∧
    (drizzleWaypointRows rid widGen 0 wps).map (fun w => (w.latitude, w.longitude)) =
      wps.map (fun wp => (quant8 wp.latitude, quant8 wp.longitude)) ∧
    (drizzleWaypointRows rid widGen 0 wps).map (fun w => w.name) =
      wps.map (fun wp => wp.name) := by
  refine ⟨?_, by simpa [List.range_eq_range'] using drizzleWaypointRows_positions rid widGen 0 wps,
    drizzleWaypointRows_coords rid widGen 0 wps, drizzleWaypointRows_names rid widGen 0 wps⟩
  rw [createRouteDrizzle_ok]
  unfold getRouteWithWaypoints
  have hfind1 : db.routes.find? (fun r => r.id == rid && r.user_id == some userId) = none := by
    rw [List.find?_eq_none]
    intro r hr
    simp [hfreshR r hr]
  have hfind :
      (db.routes ++ ([{ id := rid, user_id := some userId, name := nm, description := descr }] : List RouteRow)).find?
          (fun r => r.id == rid && r.user_id == some userId) =
        some { id := rid, user_id := some userId, name := nm, description := descr } := by
    rw [List.find?_append, hfind1]
    simp
  rw [hfind]
  have hfilter1 : db.waypoints.filter (fun w => w.route_id == rid) = [] := by
    rw [List.filter_eq_nil_iff]
    intro w hw
    simp [hfreshW w hw]
  have hfilter2 :
      (drizzleWaypointRows rid widGen 0 wps).filter (fun w => w.route_id == rid) =
        drizzleWaypointRows rid widGen 0 wps := by
    rw [List.filter_eq_self]
    intro w hw
    simp [drizzleWaypointRows_route_id rid widGen 0 wps w hw]
  rw [List.filter_append, hfilter1, hfilter2, List.nil_append]
  rw [List.mergeSort_of_sorted (by simpa using drizzleWaypointRows_sorted rid widGen 0 wps)]

/-- Witness for C7: creating a two-waypoint route in the empty database and
reading it back returns both waypoints in supplied order with positions
0 and 1 and the coordinates at stored precision. -/
theorem createRoute_getRoute_roundtrip_witness :
    getRouteWithWaypoints
        (createRouteDrizzle dbEmpty ("alice") ("r1") widDemo ("Trip") none [wpIn1, wpIn2] false).1
        ("r1") ("alice") =
      some ({ id := ("r1"), user_id := some ("alice"), name := ("Trip"), description := none },
        drizzleWaypointRows ("r1") widDemo 0 [wpIn1, wpIn2]) ∧
    (drizzleWaypointRows ("r1") widDemo 0 [wpIn1, wpIn2]).map (fun w => w.position) =
      List.range ([wpIn1, wpIn2] : List NewWaypointInput).length ∧
    (drizzleWaypointRows ("r1") widDemo 0 [wpIn1, wpIn2]).map (fun w => (w.latitude, w.longitude)) =
      ([wpIn1, wpIn2] : List NewWaypointInput).map (fun wp => (quant8 wp.latitude, quant8 wp.longitude)) ∧
    (drizzleWaypointRows ("r1") widDemo 0 [wpIn1, wpIn2]).map (fun w => w.name) =
      ([wpIn1, wpIn2] : List NewWaypointInput).map (fun wp => wp.name) :=
  createRoute_getRoute_roundtrip dbEmpty ("alice") ("r1") ("Trip") widDemo none [wpIn1, wpIn2]
    (by simp [dbEmpty]) (by simp [dbEmpty])

/-- C8 counterexample: the `update` in src/lib/trpc/routes.ts replaces
waypoints by a delete call followed by a separate insert call with no
transaction; when the insert fails the route is left with no waypoints at
all — the prior two-waypoint set is discarded without the new one-waypoint
array being persisted, so the replacement is not atomic and a partial
(neither-old-nor-new) state is observable. -/
theorem updateRoute_not_atomic_counterexample :
    (updateRouteWaypointsSupabase dbTwoWps ("r1") widDemo [wpIn1] true).1.waypoints = [] ∧
    (updateRouteWaypointsSupabase dbTwoWps ("r1") widDemo [wpIn1] true).2 =
      Except.error ("insertError") ∧
    dbTwoWps.waypoints.length = 2 := by
  refine ⟨?_, rfl, rfl⟩
  rfl

/-- C8 amended: the Drizzle path of `updateRoute` replaces waypoints through
the transactional repository `replaceWaypoints` and is atomic: on success
the route's waypoint set is exactly the rows built from the new array, with
positions 0..n-1 in array order, waypoints of other routes untouched, and
on failure the whole database is unchanged (rollback).  The Supabase
`update` in src/lib/trpc/routes.ts is not transactional: a failed insert
leaves the route with no waypoints (old set deleted, new one absent). -/
theorem updateRoute_replaceWaypoints_atomic (db : DB) (rid : String)
    (widGen : ℕ → String) (wps : List NewWaypointInput) :
    (updateRouteWaypointsDrizzle db rid widGen wps false).1.waypoints =
      db.waypoints.filter (fun w => w.route_id ≠ rid) ++ drizzleWaypointRows rid widGen 0 wps ∧
    (updateRouteWaypointsDrizzle db rid widGen wps false).1.routes = db.routes ∧
    (updateRouteWaypointsDrizzle db rid widGen wps false).2 = Except.ok () ∧
    (updateRouteWaypointsDrizzle db rid widGen wps false).1.waypoints.filter
        (fun w => w.route_id == rid) = drizzleWaypointRows rid widGen 0 wps ∧
    (drizzleWaypointRows rid widGen 0 wps).map (fun w => w.position) =
      List.range wps.length ∧
    updateRouteWaypointsDrizzle db rid widGen wps true =
      (db, Except.error ("transaction rolled back")) ∧
    updateRouteWaypointsSupabase db rid widGen wps true =
      ({ db with waypoints := db.waypoints.filter (fun w => w.route_id ≠ rid) }, Except.error ("insertError")) := by
  refine ⟨rfl, rfl, rfl, ?_, ?_, rfl, rfl⟩
  · have h1 : (db.waypoints.filter (fun w => w.route_id ≠ rid)).filter
        (fun w => w.route_id == rid) = [] := by
      rw [List.filter_eq_nil_iff]
      intro w hw
      simp only [List.mem_filter, decide_not] at hw
      simpa using hw.2
    have h2 : (drizzleWaypointRows rid widGen 0 wps).filter (fun w => w.route_id == rid) =
        drizzleWaypointRows rid widGen 0 wps := by
      rw [List.filter_eq_self]
      intro w hw
      simp [drizzleWaypointRows_route_id rid widGen 0 wps w hw]
    show (db.waypoints.filter (fun w => w.route_id ≠ rid) ++
        drizzleWaypointRows rid widGen 0 wps).filter (fun w => w.route_id == rid) = _
    rw [List.filter_append, h1, h2, List.nil_append]
  · simpa [List.range_eq_range'] using drizzleWaypointRows_positions rid widGen 0 wps

/-- C9 counterexample: two adds observing the same millisecond clock reading
(rapid consecutive adds) produce two waypoints with the identical id
`waypoint-1000`, so the freshly constructed id is not distinct from the id
of every waypoint already in the sequence. -/
theorem addWaypoint_duplicate_id_counterexample :
    ((addWaypointSync (addWaypointSync [] 1000 0 0) 1000 1 1).map Waypoint.id) =
      [("waypoint-1000"), ("waypoint-1000")] ∧
    ¬ ((addWaypointSync (addWaypointSync [] 1000 0 0) 1000 1 1).map Waypoint.id).Nodup := by
  refine ⟨rfl, ?_⟩
  decide

/-- C9 amended: `addWaypoint` always appends the new waypoint at the end of
the sequence, and its id `waypoint-<Date.now()>` is unique in the sequence
only when the millisecond clock reading differs from the one observed by
every waypoint already present — not guaranteed for rapid consecutive adds
within one millisecond. -/
theorem addWaypoint_appends_with_clock_id (ws : List Waypoint) (now : ℕ) (lng lat : ℚ)
    (hfresh : ∀ w ∈ ws, w.id ≠ mkWaypointId now) :
    addWaypointSync ws now lng lat =
      ws ++ [{ id := mkWaypointId now, lng := lng, lat := lat, name := some ("...") }] ∧
    ((ws.map Waypoint.id).Nodup → ((addWaypointSync ws now lng lat).map Waypoint.id).Nodup) := by
  refine ⟨rfl, fun h => ?_⟩
  simp only [addWaypointSync, List.map_append, List.map_cons, List.map_nil]
  rw [List.nodup_append]
  refine ⟨h, List.nodup_singleton _, ?_⟩
  intro a ha hb
  simp only [List.mem_singleton] at hb
  obtain ⟨w, hw, hwid⟩ := List.mem_map.mp ha
  exact hfresh w hw (hwid.trans hb)

/-- Witness for the amended C9: adding at millisecond 2000 after an add at
millisecond 1000 appends at the end and keeps ids unique. -/
theorem addWaypoint_appends_with_clock_id_witness :
    addWaypointSync (addWaypointSync [] 1000 0 0) 2000 1 1 =
      (addWaypointSync [] 1000 0 0) ++
        [{ id := mkWaypointId 2000, lng := 1, lat := 1, name := some ("...") }] ∧
    (((addWaypointSync [] 1000 0 0).map Waypoint.id).Nodup →
      ((addWaypointSync (addWaypointSync [] 1000 0 0) 2000 1 1).map Waypoint.id).Nodup) :=
  addWaypoint_appends_with_clock_id (addWaypointSync [] 1000 0 0) 2000 1 1 (by decide)

/-- C10: `getSuggestions` never throws (a total function into a plain
suggestion list — the catch handler absorbs every thrown error) and never
returns a partial error state: a missing access token, a thrown
fetch/parse error, and a non-ok HTTP response each produce the empty
suggestion list; a successful response produces the re-ranked list. -/
theorem getSuggestions_empty_on_failure (tok e : String)
    (outcome : Except String SuggestResponse) (resp ok : SuggestResponse)
    (hnotok : resp.ok = false) (hok : ok.ok = true) :
    getSuggestions none outcome = [] ∧
    getSuggestions (some tok) (Except.error e) = [] ∧
    getSuggestions (some tok) (Except.ok resp) = [] ∧
    getSuggestions (some tok) (Except.ok ok) = sortSuggestions ok.suggestions := by
  refine ⟨rfl, rfl, ?_, ?_⟩ <;> simp [getSuggestions, hnotok, hok]

/-- Witness for C10 at a concrete token and responses. -/
theorem getSuggestions_empty_on_failure_witness :
    getSuggestions none (Except.error ("down")) = [] ∧
    getSuggestions (some ("tok")) (Except.error ("down")) = [] ∧
    getSuggestions (some ("tok")) (Except.ok ⟨false, []⟩) = [] ∧
    getSuggestions (some ("tok")) (Except.ok ⟨true, []⟩) =
      sortSuggestions ([] : List RawSuggestion) :=
  getSuggestions_empty_on_failure ("tok") ("down") (Except.error ("down")) ⟨false, []⟩
    ⟨true, []⟩ rfl rfl

/-- C3: for every distance and settings with mpg > 0 and pricePerGallon > 0,
`calculateGallonsNeeded d mpg` is d / mpg rounded to 2 decimal places and
`calculateFuelCost d settings` is (d / mpg) * pricePerGallon rounded to 2
decimal places; concretely fuelCost(100, mpg 25, price 3.5) = 14,
doubling the price to 7 doubles it to 28, doubling mpg to 50 halves it to 7,
and gallonsNeeded(100, 25) = 4. -/
theorem calculateFuelCost_formula (d m p : ℚ) (hm : 0 < m) (_hp : 0 < p) :
    calculateGallonsNeeded (JsNum.fin d) (JsNum.fin m) = JsNum.fin (round2 (d / m)) ∧
    calculateFuelCost (JsNum.fin d) ⟨JsNum.fin m, JsNum.fin p⟩ = JsNum.fin (round2 (d / m * p)) ∧
    calculateFuelCost (JsNum.fin 100) ⟨JsNum.fin 25, JsNum.fin (7 / 2)⟩ = JsNum.fin 14 ∧
    calculateFuelCost (JsNum.fin 100) ⟨JsNum.fin 25, JsNum.fin 7⟩ = JsNum.fin 28 ∧
    calculateFuelCost (JsNum.fin 100) ⟨JsNum.fin 50, JsNum.fin (7 / 2)⟩ = JsNum.fin 7 ∧
    calculateGallonsNeeded (JsNum.fin 100) (JsNum.fin 25) = JsNum.fin 4 := by
  have hm' : m ≠ 0 := ne_of_gt hm
  refine ⟨?_, ?_, ?_, ?_, ?_, ?_⟩ <;>
    norm_num [calculateGallonsNeeded, calculateFuelCost, jsDiv, jsMul, jsToFixed2Num,
      round2, hm']

/-- Witness for C3 at distance 100, mpg 25, price 7/2. -/
theorem calculateFuelCost_formula_witness :
    (0 : ℚ) < 25 ∧ (0 : ℚ) < 7 / 2 ∧
    (calculateGallonsNeeded (JsNum.fin 100) (JsNum.fin 25) = JsNum.fin (round2 (100 / 25)) ∧
     calculateFuelCost (JsNum.fin 100) ⟨JsNum.fin 25, JsNum.fin (7 / 2)⟩ =
       JsNum.fin (round2 (100 / 25 * (7 / 2))) ∧
     calculateFuelCost (JsNum.fin 100) ⟨JsNum.fin 25, JsNum.fin (7 / 2)⟩ = JsNum.fin 14 ∧
     calculateFuelCost (JsNum.fin 100) ⟨JsNum.fin 25, JsNum.fin 7⟩ = JsNum.fin 28 ∧
     calculateFuelCost (JsNum.fin 100) ⟨JsNum.fin 50, JsNum.fin (7 / 2)⟩ = JsNum.fin 7 ∧
     calculateGallonsNeeded (JsNum.fin 100) (JsNum.fin 25) = JsNum.fin 4) :=
  ⟨by norm_num, by norm_num,
   calculateFuelCost_formula 100 25 (7 / 2) (by norm_num) (by norm_num)⟩

/-- C2 counterexample: with mpg = 0 the estimator does not signal an error;
`calculateFuelCost(100, mpg 0, price 3.5)` and `calculateGallonsNeeded(100, 0)`
both return the computed value Infinity. -/
theorem calculateFuelCost_mpg_zero_counterexample :
    calculateFuelCost (JsNum.fin 100) ⟨JsNum.fin 0, JsNum.fin (7 / 2)⟩ = JsNum.posInf ∧
    calculateGallonsNeeded (JsNum.fin 100) (JsNum.fin 0) = JsNum.posInf := by
  norm_num [calculateFuelCost, calculateGallonsNeeded, jsDiv, jsMul, jsToFixed2Num]

/-- C2 amended: `calculateFuelCost` and `calculateGallonsNeeded` perform no
mpg = 0 validation and have no error channel; for mpg = 0 they return
Infinity for every positive distance (and NaN for distance 0), rather than
rejecting the input.  mpg > 0 is enforced only by the UI slider (minimum 10),
not by the estimator. -/
theorem calculateFuelCost_mpg_zero_no_validation (d p : ℚ) (hd : 0 < d) (hp : 0 < p) :
    calculateFuelCost (JsNum.fin d) ⟨JsNum.fin 0, JsNum.fin p⟩ = JsNum.posInf ∧
    calculateGallonsNeeded (JsNum.fin d) (JsNum.fin 0) = JsNum.posInf ∧
    calculateFuelCost (JsNum.fin 0) ⟨JsNum.fin 0, JsNum.fin p⟩ = JsNum.nan := by
  simp [calculateFuelCost, calculateGallonsNeeded, jsDiv, jsMul, jsToFixed2Num, hd, hp,
    lt_irrefl]

/-- Witness for the amended C2 at distance 100, price 7/2. -/

theorem calculateFuelCost_mpg_zero_no_validation_witness :
    (0 : ℚ) < 100 ∧ (0 : ℚ) < 7 / 2 ∧
    (calculateFuelCost (JsNum.fin 100) ⟨JsNum.fin 0, JsNum.fin (7 / 2)⟩ = JsNum.posInf ∧
     calculateGallonsNeeded (JsNum.fin 100) (JsNum.fin 0) = JsNum.posInf ∧
     calculateFuelCost (JsNum.fin 0) ⟨JsNum.fin 0, JsNum.fin (7 / 2)⟩ = JsNum.nan) :=
  ⟨by norm_num, by norm_num,
   calculateFuelCost_mpg_zero_no_validation 100 (7 / 2) (by norm_num) (by norm_num)⟩

end Roadtrip
